import Mathlib

/-!
Verification of `illumina_to_vcf_converter.py`: a shallow embedding of the
strand-reconciliation and genotype-encoding pipeline, with theorems checking
the natural-language specification's claims against the code.

Python strings of length one (single bases, genotype codes) are modelled as
`Char`; genotype rows as `List Char`; the genotype matrix as
`List (List Char)` (one row per sample); fallible field access (pandas
`KeyError`) as `Option`-valued fields; out-of-range genotype-column access
(numpy `IndexError`) as `List.get?` returning `none`.
-/

namespace IlluminaVCF

/-- Embedding of the Python dict `{'A':'T','T':'A','C':'G','G':'C'}` together
with its `.get(allele, '.')` access: Watson-Crick complement with the missing
sentinel `'.'` as default. -/
def complementGet (a : Char) : Char :=
  if a = 'A' then 'T'
  else if a = 'T' then 'A'
  else if a = 'C' then 'G'
  else if a = 'G' then 'C'
  else '.'

/-- Embedding of `convert_strand(allele, ilmn_strand, customer_strand)`:
return the allele unchanged when the two strand labels agree, otherwise
`complement.get(allele, '.')`. -/
def convert_strand (allele : Char) (ilmn_strand customer_strand : String) : Char :=
  if ilmn_strand = customer_strand then allele
  else complementGet allele

/-- One entry lookup of the `genotype_mapping` dict built by
`convert_genotype`, including the `.get(x, './.')` default.  The
`alt if alt != '.' else '.'` guards of the source are kept verbatim. -/
def genotype_mapping (ref alt : Char) (phased : Bool) (x : Char) : String :=
  let sep : String := if phased then "|" else "/"
  let r : Char := if ref ≠ '.' then ref else '.'
  let a : Char := if alt ≠ '.' then alt else '.'
  if x = '0' then String.singleton a ++ sep ++ String.singleton a
  else if x = '1' then String.singleton r ++ sep ++ String.singleton a
  else if x = '2' then String.singleton r ++ sep ++ String.singleton r
  else if x = '5' then "./."
  else if x = '-' then "./."
  else "./."

/-- Embedding of `convert_genotype(genotype, ref, alt, phased)`: the
`np.vectorize(lambda x: genotype_mapping.get(x, './.'))` application over the
genotype row, an element-wise map. -/
def convert_genotype (genotype : List Char) (ref alt : Char) (phased : Bool) : List String :=
  genotype.map (genotype_mapping ref alt phased)

/-- Embedding of the per-marker strand-reconciliation step of `main`
(the `len(snp) != 2` guard, the two `convert_strand` calls and the
filter-status assignment): returns `(ref, alt, filter_status)`. -/
def reconcile (snp : List Char) (ilmn_strand customer_strand : String) :
    Char × Char × String :=
  match snp with
  | [a, b] =>
    let ref := convert_strand a ilmn_strand customer_strand
    let alt := convert_strand b ilmn_strand customer_strand
    (ref, alt, if ref ≠ '.' ∧ alt ≠ '.' then "PASS" else "LowQual")
  | _ => ('.', '.', "LowQual")

/-- One row of the marker table.  An `Option` field set to `none` models a
field whose access raises `KeyError` for this marker.  `SNP = none` models a
null value: the source's `str(marker['SNP']) if pd.notnull(marker['SNP'])
else ''` turns it into the empty string. -/
structure Marker where
  Chromosome : Int
  Position : Option Int
  Name : Option String
  SNP : Option String
  ILMN_Strand : Option String
  Customer_Strand : Option String
deriving DecidableEq, Repr

/-- Embedding of the field reads at the top of the per-marker `try` block:
fails (models `KeyError`) when a required field is missing. -/
def extractFields (m : Marker) :
    Option (Int × Int × String × String × String × String) := do
  let pos ← m.Position
  let name ← m.Name
  let snp := m.SNP.getD ""
  let il ← m.ILMN_Strand
  let cu ← m.Customer_Strand
  pure (m.Chromosome, pos, name, snp, il, cu)

/-- Embedding of `genotype_array[:, index]`: the column of the genotype
matrix at `idx`, failing (models `IndexError`) when the column is out of
range. -/
def getColumn (geno : List (List Char)) (idx : Nat) : Option (List Char) :=
  geno.mapM (fun row => row.get? idx)

/-- The Python condition `chromosome and marker['Chromosome'] != chromosome`
that skips a marker: the optional filter must be truthy (present and
nonzero) and the marker's chromosome must differ from it. -/
def chromSkip (chromosome : Option Int) (chrom : Int) : Bool :=
  match chromosome with
  | none => false
  | some c => c ≠ 0 && chrom ≠ c

/-- Embedding of one iteration of the marker loop of `main`: `none` when the
marker is skipped by the chromosome filter or when its processing raises a
data-access or lookup error (the loop's `except ... continue`), otherwise
the VCF data line written for it. -/
def markerLine (geno : List (List Char)) (phased : Bool)
    (chromosome : Option Int) (idx : Nat) (m : Marker) : Option String :=
  if chromSkip chromosome m.Chromosome then none
  else
    match extractFields m, getColumn geno idx with
    | some (chrom, pos, name, snp, il, cu), some col =>
      let r := reconcile snp.data il cu
      let genotype_values := convert_genotype col r.1 r.2.1 phased
      some (toString chrom ++ "\t" ++ toString pos ++ "\t" ++ name ++ "\t" ++
        String.singleton r.1 ++ "\t" ++ String.singleton r.2.1 ++ "\t.\t" ++
        r.2.2 ++ "\t.\tGT\t" ++ String.intercalate "\t" genotype_values ++ "\n")
    | _, _ => none

/-- Embedding of the marker loop of `main`, starting at table index `idx`:
the list of VCF data lines written, in marker-table order. -/
def runPipeline (geno : List (List Char)) (phased : Bool)
    (chromosome : Option Int) : Nat → List Marker → List String
  | _, [] => []
  | idx, m :: ms =>
    match markerLine geno phased chromosome idx m with
    | some line => line :: runPipeline geno phased chromosome (idx + 1) ms
    | none => runPipeline geno phased chromosome (idx + 1) ms

end IlluminaVCF

namespace IlluminaVCF

/-- Helper: a chromosome filter of `0` never skips a marker, so `markerLine`
with filter `some 0` agrees with `markerLine` without a filter. -/
theorem markerLine_some_zero (geno : List (List Char)) (phased : Bool)
    (idx : Nat) (m : Marker) :
    markerLine geno phased (some 0) idx m = markerLine geno phased none idx m := by
  unfold markerLine
  simp [chromSkip]

/-- Helper: a marker whose field extraction fails (`KeyError`) or whose
genotype column is out of range (`IndexError`) produces no line. -/
theorem markerLine_fail_none (geno : List (List Char)) (phased : Bool)
    (chromosome : Option Int) (idx : Nat) (m : Marker)
    (h : extractFields m = none ∨ getColumn geno idx = none) :
    markerLine geno phased chromosome idx m = none := by
  unfold markerLine
  split
  · rfl
  · rcases h with h | h
    · rw [h]
    · rw [h]
      cases hf : extractFields m with
      | none => rfl
      | some v =>
        obtain ⟨chrom, pos, name, snp, il, cu⟩ := v
        rfl

/-- Helper: the marker loop distributes over list append, with the table
index advanced past the first block. -/
theorem runPipeline_append (geno : List (List Char)) (phased : Bool)
    (chromosome : Option Int) :
    ∀ (ms1 : List Marker) (idx : Nat) (ms2 : List Marker),
      runPipeline geno phased chromosome idx (ms1 ++ ms2)
        = runPipeline geno phased chromosome idx ms1
          ++ runPipeline geno phased chromosome (idx + ms1.length) ms2
  | [], idx, ms2 => by simp [runPipeline]
  | m :: ms, idx, ms2 => by
    simp only [List.cons_append, runPipeline, List.append_eq]
    rw [runPipeline_append geno phased chromosome ms (idx + 1) ms2]
    have harith : idx + 1 + ms.length = idx + (m :: ms).length := by
      simp [List.length_cons]; omega
    rw [harith]
    cases markerLine geno phased chromosome idx m <;> simp

/-- C1: `convert_genotype` is a pure per-element map over the input row,
preserving its length and order; with `ref='A'`, `alt='G'` the codes
`'0','1','2','5','-'` and any other code map to `G/G, A/G, A/A, ./., ./., ./.`
unphased and to the same pattern with `|` when phased; unrecognized codes
always yield `./.` (the mapping is total, so they never raise an error). -/
theorem C1_encode_row :
    (∀ (codes : List Char) (ref alt : Char) (phased : Bool),
        convert_genotype codes ref alt phased
          = codes.map (genotype_mapping ref alt phased)
        ∧ (convert_genotype codes ref alt phased).length = codes.length)
    ∧ (∀ (ref alt : Char) (phased : Bool) (x : Char),
        x ∉ ['0', '1', '2', '5', '-'] →
          genotype_mapping ref alt phased x = "./.")
    ∧ convert_genotype ['0', '1', '2', '5', '-', '?'] 'A' 'G' false
        = ["G/G", "A/G", "A/A", "./.", "./.", "./."]
    ∧ convert_genotype ['0', '1', '2', '5', '-', '?'] 'A' 'G' true
        = ["G|G", "A|G", "A|A", "./.", "./.", "./."] := by
  refine ⟨fun codes ref alt phased => ⟨rfl, by simp [convert_genotype]⟩,
    ?_, by decide, by decide⟩
  intro ref alt phased x hx
  simp only [List.mem_cons, List.not_mem_nil, or_false, not_or] at hx
  obtain ⟨h0, h1, h2, h5, hm⟩ := hx
  simp [genotype_mapping, h0, h1, h2, h5, hm]

/-- Witness for C1 at the concrete unrecognized code `'?'`. -/
theorem C1_encode_row_witness :
    ('?' : Char) ∉ ['0', '1', '2', '5', '-']
    ∧ genotype_mapping 'A' 'G' false '?' = "./." :=
  ⟨by decide, C1_encode_row.2.1 'A' 'G' false '?' (by decide)⟩

/-- C2 counterexample: the non-base character `'N'` with two equal strand
labels is returned unchanged by `convert_strand`, not mapped to the missing
sentinel `'.'`, refuting the claim that every non-ACGT base maps to `'.'`
regardless of strand agreement. -/
theorem C2_counterexample :
    ('N' : Char) ∉ ['A', 'T', 'C', 'G']
    ∧ convert_strand 'N' "TOP" "TOP" ≠ '.' := by decide

/-- C2 (amended): for every base character not in `{A,T,C,G}`,
`convert_strand` returns the missing sentinel `'.'` whenever the two strand
labels differ (when they are equal it returns the base unchanged). -/
theorem C2_nonbase_differing_strands (b : Char) (hb : b ∉ ['A', 'T', 'C', 'G'])
    (s1 s2 : String) (hs : s1 ≠ s2) :
    convert_strand b s1 s2 = '.' := by
  simp only [List.mem_cons, List.not_mem_nil, or_false, not_or] at hb
  obtain ⟨hA, hT, hC, hG⟩ := hb
  simp [convert_strand, hs, complementGet, hA, hT, hC, hG]

/-- Witness for the amended C2 at `b='N'`, strands `TOP` vs `BOT`. -/
theorem C2_nonbase_differing_strands_witness :
    ('N' : Char) ∉ ['A', 'T', 'C', 'G'] ∧ ("TOP" : String) ≠ "BOT"
    ∧ convert_strand 'N' "TOP" "BOT" = '.' :=
  ⟨by decide, by decide,
    C2_nonbase_differing_strands 'N' (by decide) "TOP" "BOT" (by decide)⟩

/-- C3: for every base in `{A,T,C,G}`, `convert_strand` is the identity when
the two strand labels agree, is the Watson-Crick complement (A↔T, C↔G) when
they differ, and applying it twice with swapped strand arguments returns the
original base. -/
theorem C3_strand_algebra :
    (∀ b : Char, b ∈ ['A', 'T', 'C', 'G'] →
      ∀ s : String, convert_strand b s s = b)
    ∧ (∀ s1 s2 : String, s1 ≠ s2 →
        convert_strand 'A' s1 s2 = 'T' ∧ convert_strand 'T' s1 s2 = 'A'
        ∧ convert_strand 'C' s1 s2 = 'G' ∧ convert_strand 'G' s1 s2 = 'C')
    ∧ (∀ b : Char, b ∈ ['A', 'T', 'C', 'G'] →
        ∀ s1 s2 : String, convert_strand (convert_strand b s1 s2) s2 s1 = b) := by
  refine ⟨fun b _ s => by simp [convert_strand], ?_, ?_⟩
  · intro s1 s2 hs
    refine ⟨?_, ?_, ?_, ?_⟩ <;> simp [convert_strand, hs, complementGet]
  · intro b hb s1 s2
    by_cases hs : s1 = s2
    · subst hs
      simp [convert_strand]
    · have hs' : ¬ s2 = s1 := fun h => hs h.symm
      simp only [convert_strand, if_neg hs, if_neg hs']
      fin_cases hb <;> decide

/-- Witness for C3 at `b='A'`, strands `TOP` and `BOT`. -/
theorem C3_strand_algebra_witness :
    ('A' : Char) ∈ ['A', 'T', 'C', 'G'] ∧ ("TOP" : String) ≠ "BOT"
    ∧ convert_strand 'A' "TOP" "TOP" = 'A'
    ∧ convert_strand 'A' "TOP" "BOT" = 'T'
    ∧ convert_strand (convert_strand 'A' "TOP" "BOT") "BOT" "TOP" = 'A' :=
  ⟨by decide, by decide, C3_strand_algebra.1 'A' (by decide) "TOP",
    (C3_strand_algebra.2.1 "TOP" "BOT" (by decide)).1,
    C3_strand_algebra.2.2 'A' (by decide) "TOP" "BOT"⟩

/-- C4: for every SNP whose length is not exactly 2 (including the empty
string), the reconciler returns ref `'.'`, alt `'.'` and filter status
`LowQual`. -/
theorem C4_invalid_snp (snp : List Char) (h : snp.length ≠ 2)
    (ilmn customer : String) :
    reconcile snp ilmn customer = ('.', '.', "LowQual") := by
  rcases snp with _ | ⟨a, _ | ⟨b, _ | ⟨c, t⟩⟩⟩
  · rfl
  · rfl
  · exact absurd rfl h
  · rfl

/-- Witness for C4 at the one-character SNP string `"A"`. -/
theorem C4_invalid_snp_witness :
    ("A".data.length ≠ 2)
    ∧ reconcile "A".data "TOP" "BOT" = ('.', '.', "LowQual") :=
  ⟨by decide, C4_invalid_snp "A".data (by decide) "TOP" "BOT"⟩

/-- C5: for every marker, the filter status produced by the reconciler step
is `PASS` exactly when both the resolved ref and the resolved alt differ
from the missing sentinel `'.'`, and `LowQual` otherwise. -/
theorem C5_filter_pass_iff (snp : List Char) (ilmn customer : String) :
    (reconcile snp ilmn customer).2.2 = "PASS" ↔
      (reconcile snp ilmn customer).1 ≠ '.'
      ∧ (reconcile snp ilmn customer).2.1 ≠ '.' := by
  rcases snp with _ | ⟨a, _ | ⟨b, _ | ⟨c, t⟩⟩⟩
  · show ("LowQual" : String) = "PASS" ↔ ('.' : Char) ≠ '.' ∧ ('.' : Char) ≠ '.'
    decide
  · show ("LowQual" : String) = "PASS" ↔ ('.' : Char) ≠ '.' ∧ ('.' : Char) ≠ '.'
    decide
  · show (if convert_strand a ilmn customer ≠ '.' ∧ convert_strand b ilmn customer ≠ '.'
        then "PASS" else "LowQual") = "PASS" ↔ _
    by_cases hc : convert_strand a ilmn customer ≠ '.'
        ∧ convert_strand b ilmn customer ≠ '.'
    · rw [if_pos hc]
      exact iff_of_true rfl hc
    · rw [if_neg hc]
      exact iff_of_false (by decide) hc
  · show ("LowQual" : String) = "PASS" ↔ ('.' : Char) ≠ '.' ∧ ('.' : Char) ≠ '.'
    decide

/-- C6: a ref equal to the missing sentinel `'.'` is emitted literally inside
the genotype pattern: code `'1'` with ref `'.'` and alt `'A'` yields `./A`
unphased and `.|A` phased, not `./.`. -/
theorem C6_sentinel_propagates :
    convert_genotype ['1'] '.' 'A' false = ["./A"]
    ∧ convert_genotype ['1'] '.' 'A' true = [".|A"]
    ∧ ("./A" : String) ≠ "./." ∧ (".|A" : String) ≠ "./." := by decide

/-- C7: with a truthy chromosome filter, no line is emitted for any marker
whose chromosome differs from the filter; concretely, with filter `1` and
markers on chromosomes `[1,2,1,3]` exactly the two chromosome-1 lines are
written, in their original relative order. -/
theorem C7_chromosome_filter :
    (∀ (geno : List (List Char)) (phased : Bool) (c : Int) (idx : Nat) (m : Marker),
        c ≠ 0 → m.Chromosome ≠ c → markerLine geno phased (some c) idx m = none)
    ∧ runPipeline [['0', '1', '2', '0']] false (some 1) 0
        [⟨1, some 100, some "m0", some "AG", some "TOP", some "TOP"⟩,
         ⟨2, some 200, some "m1", some "AG", some "TOP", some "TOP"⟩,
         ⟨1, some 300, some "m2", some "AG", some "TOP", some "BOT"⟩,
         ⟨3, some 400, some "m3", some "AG", some "TOP", some "TOP"⟩]
      = ["1\t100\tm0\tA\tG\t.\tPASS\t.\tGT\tG/G\n",
         "1\t300\tm2\tT\tC\t.\tPASS\t.\tGT\tT/T\n"] := by
  constructor
  · intro geno phased c idx m hc hm
    unfold markerLine
    rw [if_pos]
    simp [chromSkip, hc, hm]
  · decide

/-- Witness for C7 at the chromosome-2 marker against filter 1. -/
theorem C7_chromosome_filter_witness :
    (1 : Int) ≠ 0
    ∧ (⟨2, some 200, some "m1", some "AG", some "TOP", some "TOP"⟩ : Marker).Chromosome ≠ 1
    ∧ markerLine [['0', '1', '2', '0']] false (some 1) 1
        ⟨2, some 200, some "m1", some "AG", some "TOP", some "TOP"⟩ = none :=
  ⟨by decide, by decide,
    C7_chromosome_filter.1 [['0', '1', '2', '0']] false 1 1 _ (by decide) (by decide)⟩

/-- C8: a marker whose processing hits a data-access or lookup error —
either a missing field (`KeyError`, `extractFields = none`) or an
out-of-range genotype column (`IndexError`, `getColumn = none` at its table
index) — contributes no line, and the pipeline still writes every other
marker's line, in order: the output over `ms1 ++ bad :: ms2` is the output
over `ms1` followed by the output over `ms2` at its original table
indices. -/
theorem C8_failure_isolation (geno : List (List Char)) (phased : Bool)
    (chromosome : Option Int) (ms1 : List Marker) (bad : Marker) (ms2 : List Marker)
    (h : extractFields bad = none ∨ getColumn geno ms1.length = none) :
    runPipeline geno phased chromosome 0 (ms1 ++ bad :: ms2)
      = runPipeline geno phased chromosome 0 ms1
        ++ runPipeline geno phased chromosome (ms1.length + 1) ms2 := by
  rw [runPipeline_append geno phased chromosome ms1 0 (bad :: ms2)]
  have hline : markerLine geno phased chromosome (0 + ms1.length) bad = none := by
    refine markerLine_fail_none geno phased chromosome (0 + ms1.length) bad ?_
    rwa [Nat.zero_add]
  show _ ++ (match markerLine geno phased chromosome (0 + ms1.length) bad with
    | some line => line :: runPipeline geno phased chromosome (0 + ms1.length + 1) ms2
    | none => runPipeline geno phased chromosome (0 + ms1.length + 1) ms2) = _
  rw [hline]
  simp [Nat.zero_add]

/-- Witness for C8, exercising both failure modes: a marker with a missing
Position field between two valid markers is skipped while both neighbours'
lines are still produced, and a marker whose table index exceeds the
genotype row length is skipped while its predecessor's line is still
produced. -/
theorem C8_failure_isolation_witness :
    (extractFields ⟨1, none, some "badm", some "AG", some "TOP", some "TOP"⟩ = none
    ∧ runPipeline [['0', '1', '2']] false none 0
        [⟨1, some 100, some "m0", some "AG", some "TOP", some "TOP"⟩,
         ⟨1, none, some "badm", some "AG", some "TOP", some "TOP"⟩,
         ⟨1, some 300, some "m2", some "AG", some "TOP", some "TOP"⟩]
      = runPipeline [['0', '1', '2']] false none 0
          [⟨1, some 100, some "m0", some "AG", some "TOP", some "TOP"⟩]
        ++ runPipeline [['0', '1', '2']] false none 2
          [⟨1, some 300, some "m2", some "AG", some "TOP", some "TOP"⟩])
    ∧ (getColumn [['0']] 1 = none
    ∧ runPipeline [['0']] false none 0
        [⟨1, some 100, some "m0", some "AG", some "TOP", some "TOP"⟩,
         ⟨1, some 200, some "badc", some "AG", some "TOP", some "TOP"⟩]
      = runPipeline [['0']] false none 0
          [⟨1, some 100, some "m0", some "AG", some "TOP", some "TOP"⟩]
        ++ runPipeline [['0']] false none 2 []) :=
  ⟨⟨rfl, C8_failure_isolation [['0', '1', '2']] false none
    [⟨1, some 100, some "m0", some "AG", some "TOP", some "TOP"⟩]
    ⟨1, none, some "badm", some "AG", some "TOP", some "TOP"⟩
    [⟨1, some 300, some "m2", some "AG", some "TOP", some "TOP"⟩] (Or.inl rfl)⟩,
   ⟨rfl, C8_failure_isolation [['0']] false none
    [⟨1, some 100, some "m0", some "AG", some "TOP", some "TOP"⟩]
    ⟨1, some 200, some "badc", some "AG", some "TOP", some "TOP"⟩
    [] (Or.inr rfl)⟩⟩

/-- C9: with equal strand labels `convert_strand` returns its allele argument
unchanged for every character, including non-ACGT ones; consequently a
marker with SNP `"NA"` and matching strands is emitted with `N` verbatim as
ref and filter status `PASS`. -/
theorem C9_equal_strands_passthrough :
    (∀ (a : Char) (s : String), convert_strand a s s = a)
    ∧ reconcile "NA".data "TOP" "TOP" = ('N', 'A', "PASS")
    ∧ markerLine [['1']] false none 0
        ⟨1, some 42, some "snpN", some "NA", some "TOP", some "TOP"⟩
      = some "1\t42\tsnpN\tN\tA\t.\tPASS\t.\tGT\tN/A\n" :=
  ⟨fun a s => by simp [convert_strand], by decide, by decide⟩

/-- C10: a supplied chromosome filter of `0` disables filtering entirely: the
skip test never fires, and the pipeline's output with filter `some 0` equals
its output with no filter, for every marker table. -/
theorem C10_zero_filter_disables :
    (∀ chrom : Int, chromSkip (some 0) chrom = false)
    ∧ ∀ (geno : List (List Char)) (phased : Bool) (idx : Nat) (ms : List Marker),
        runPipeline geno phased (some 0) idx ms
          = runPipeline geno phased none idx ms := by
  refine ⟨fun chrom => by simp [chromSkip], ?_⟩
  intro geno phased idx ms
  induction ms generalizing idx with
  | nil => rfl
  | cons m ms ih =>
    show (match markerLine geno phased (some 0) idx m with
      | some line => line :: runPipeline geno phased (some 0) (idx + 1) ms
      | none => runPipeline geno phased (some 0) (idx + 1) ms) = _
    rw [markerLine_some_zero, ih]
    rfl

end IlluminaVCF
